import Mathlib

/-!
Verification of the decision core of the GCP architecture designer app
(`src/app.py`): the recommender `architecture_logic` and the verifier
`agentic_verifier`, shallowly embedded over an explicit record of the
fifteen slider inputs (the Python code reads them as module globals).
-/

namespace GCPView

/-- The fifteen input parameters set by the sliders in `app.py` (lines 52-70).
Numeric sliders are integers; select-sliders are strings, as in the source. -/
structure InputParameters where
  users : Int
  rps : Int
  latency_ms : Int
  data_gb_day : Int
  rag_corpus_gb : Int
  freshness_min : Int
  streaming_pct : Int
  availability : String
  rpo_min : Int
  rto_min : Int
  security : String
  compliance : String
  budget : String
  model_size : String
  embed_refresh_hours : Int
deriving DecidableEq, Repr

/-- A value in the architecture dictionary: the Python dict maps some keys to a
single string and others to a list of strings. -/
inductive CategoryValue where
  | single (value : String)
  | multi (values : List String)
deriving DecidableEq, Repr

/-- The architecture selection, as the ordered key/value dictionary built by
`architecture_logic` (lines 86-99). -/
abbrev Selection := List (String × CategoryValue)

/-- Dictionary lookup, `arch_dict[k]`; `none` models Python's `KeyError`. -/
def selLookup (d : Selection) (k : String) : Option CategoryValue :=
  (d.find? (fun kv => kv.1 == k)).map (fun kv => kv.2)

/-- Python substring containment `needle in hay` for strings. -/
def strContains (hay needle : String) : Bool :=
  needle == "" || (hay.splitOn needle).length != 1

/-- Python `needle in v`: list membership when `v` is a list, substring
containment when `v` is a single string. -/
def pyIn (needle : String) : CategoryValue → Bool
  | .single s => strContains s needle
  | .multi ss => ss.contains needle

/-- Python `v == s` where `s` is a string: true only when `v` is a string equal
to `s` (a list never equals a string). -/
def pyEqStr : CategoryValue → String → Bool
  | .single t, s => t == s
  | .multi _, _ => false

/-- The recommender `architecture_logic` (`app.py` lines 73-99), with the
slider globals passed explicitly. -/
def architecture_logic (p : InputParameters) : Selection :=
  let api_layer := if p.latency_ms > 150 then ["Cloud Run (FastAPI)"] else ["Vertex AI Endpoints"]
  let ingestion := if p.streaming_pct ≥ 50 then ["Cloud Storage", "Pub/Sub"] else ["Cloud Storage", "Batch Dataflow"]
  let processing := [if p.freshness_min < 15 then "Dataflow (Streaming)" else "BigQuery + Composer"]
  let storage := ["BigQuery", "Cloud SQL", "Firestore"]
  let vector_db := if p.rag_corpus_gb > 50 then "Vertex AI Matching Engine" else "pgvector on Cloud SQL"
  let embedding_pipeline := "Cloud Run Embedding Workers"
  let llm_serving := if p.model_size == "L" then "Vertex AI Endpoints" else "Cloud Run (Light LLM)"
  let agentic_ai := ["Workflows orchestrator", "Serverless agents", "Pub/Sub triggers"]
  let mlops := ["Vertex AI Experiments", "Model Registry", "Cloud Monitoring + Logging"]
  let cicd := ["GitHub Actions → Cloud Build → Deploy", "Terraform Infra as Code"]
  let dr := ["Multi-region backups", "Cold/Warm standby"]
  let rag_stack := ["Retriever (FAISS or Matching Engine)", "Vector DB: " ++ vector_db, "Context Builder", "RAG Policy"]
  [ ("API Layer", .multi api_layer),
    ("Ingestion", .multi ingestion),
    ("Processing", .multi processing),
    ("Storage", .multi storage),
    ("Vector DB", .single vector_db),
    ("Embedding Pipeline", .single embedding_pipeline),
    ("RAG Stack", .multi rag_stack),
    ("LLM Serving", .single llm_serving),
    ("Agentic AI", .multi agentic_ai),
    ("MLOps", .multi mlops),
    ("CI/CD", .multi cicd),
    ("DR/Resilience", .multi dr) ]

/-- Advisory of verifier rule 1 (`app.py` line 135). -/
def warn1 : String := "⚠️ Suggest Vertex AI Matching Engine for large RAG corpus instead of Cloud SQL."

/-- Advisory of verifier rule 2 (`app.py` line 137). -/
def warn2 : String := "⚠️ Large models on Cloud Run may hit resource limits; consider Vertex AI endpoints."

/-- Advisory of verifier rule 3 (`app.py` line 139). -/
def warn3 : String := "⚠️ High streaming %; consider adding Dataflow streaming transforms."

/-- Positive confirmation appended when no rule fires (`app.py` line 141). -/
def okMsg : String := "✅ Architecture looks reasonable given free LLM verification constraints."

/-- The verifier `agentic_verifier` (`app.py` lines 132-142), with the slider
globals passed explicitly.  `none` models a `KeyError` on a dictionary missing
a key the evaluated conditions look up (Python's `and` short-circuits, so rule
2 only looks up "LLM Serving" when the model size is "L", and rule 3 only
looks up "Processing" when the streaming percentage exceeds 70). -/
def agentic_verifier (p : InputParameters) (d : Selection) : Option (List String) :=
  match selLookup d "Storage" with
  | none => none
  | some storageVal =>
    let fb1 : List String :=
      if pyIn "Cloud SQL" storageVal && decide (p.rag_corpus_gb > 500) then [warn1] else []
    let ofb2 : Option (List String) :=
      if p.model_size == "L" then
        match selLookup d "LLM Serving" with
        | none => none
        | some llmVal => some (if pyEqStr llmVal "Cloud Run (Light LLM)" then [warn2] else [])
      else some []
    match ofb2 with
    | none => none
    | some fb2 =>
      let ofb3 : Option (List String) :=
        if decide (p.streaming_pct > 70) then
          match selLookup d "Processing" with
          | none => none
          | some procVal => some (if !(pyIn "Dataflow (Streaming)" procVal) then [warn3] else [])
        else some []
      match ofb3 with
      | none => none
      | some fb3 =>
        let feedback := fb1 ++ fb2 ++ fb3
        some (if feedback.isEmpty then [okMsg] else feedback)

/-- Condition of verifier rule 1 (`app.py` line 134). -/
def rule1_fires (p : InputParameters) (d : Selection) : Bool :=
  match selLookup d "Storage" with
  | some v => pyIn "Cloud SQL" v && decide (p.rag_corpus_gb > 500)
  | none => false

/-- Condition of verifier rule 2 (`app.py` line 136). -/
def rule2_fires (p : InputParameters) (d : Selection) : Bool :=
  p.model_size == "L" &&
    (match selLookup d "LLM Serving" with
     | some v => pyEqStr v "Cloud Run (Light LLM)"
     | none => false)

/-- Condition of verifier rule 3 (`app.py` line 138). -/
def rule3_fires (p : InputParameters) (d : Selection) : Bool :=
  decide (p.streaming_pct > 70) &&
    (match selLookup d "Processing" with
     | some v => !(pyIn "Dataflow (Streaming)" v)
     | none => false)

/-- Shape (single string vs. list of strings) of a dictionary value. -/
def isMulti : CategoryValue → Bool
  | .single _ => false
  | .multi _ => true

/-- The slider default values (`app.py` lines 52-70), used as a concrete input. -/
def defaultParams : InputParameters :=
  { users := 500, rps := 120, latency_ms := 300, data_gb_day := 80,
    rag_corpus_gb := 200, freshness_min := 30, streaming_pct := 60,
    availability := "99.9%", rpo_min := 15, rto_min := 30,
    security := "High", compliance := "PII", budget := "Medium",
    model_size := "M", embed_refresh_hours := 24 }

/-- The report the verifier produces when no `KeyError` occurs: the advisories
of the firing rules in rule order, or the confirmation when none fires. -/
def verdict (p : InputParameters) (d : Selection) : List String :=
  let fb := (if rule1_fires p d then [warn1] else []) ++
            (if rule2_fires p d then [warn2] else []) ++
            (if rule3_fires p d then [warn3] else [])
  if fb.isEmpty then [okMsg] else fb

theorem selLookup_storage (p : InputParameters) :
    selLookup (architecture_logic p) "Storage" =
      some (.multi ["BigQuery", "Cloud SQL", "Firestore"]) := rfl

theorem selLookup_api_layer (p : InputParameters) :
    selLookup (architecture_logic p) "API Layer" =
      some (.multi (if p.latency_ms > 150 then ["Cloud Run (FastAPI)"] else ["Vertex AI Endpoints"])) := rfl

theorem selLookup_vector_db (p : InputParameters) :
    selLookup (architecture_logic p) "Vector DB" =
      some (.single (if p.rag_corpus_gb > 50 then "Vertex AI Matching Engine" else "pgvector on Cloud SQL")) := rfl

theorem selLookup_llm_serving (p : InputParameters) :
    selLookup (architecture_logic p) "LLM Serving" =
      some (.single (if p.model_size == "L" then "Vertex AI Endpoints" else "Cloud Run (Light LLM)")) := rfl

theorem selLookup_processing (p : InputParameters) :
    selLookup (architecture_logic p) "Processing" =
      some (.multi [if p.freshness_min < 15 then "Dataflow (Streaming)" else "BigQuery + Composer"]) := rfl

/-- When the three keys the rules may look up are present, the verifier
succeeds and returns exactly the `verdict`. -/
theorem agentic_verifier_eq_verdict (p : InputParameters) (d : Selection)
    (h1 : (selLookup d "Storage").isSome)
    (h2 : (selLookup d "LLM Serving").isSome)
    (h3 : (selLookup d "Processing").isSome) :
    agentic_verifier p d = some (verdict p d) := by
  rcases hs : selLookup d "Storage" with _ | sv
  · rw [hs] at h1; simp at h1
  rcases hl : selLookup d "LLM Serving" with _ | lv
  · rw [hl] at h2; simp at h2
  rcases hp : selLookup d "Processing" with _ | pv
  · rw [hp] at h3; simp at h3
  by_cases hm : p.model_size = "L" <;> by_cases hst : p.streaming_pct > 70 <;>
    simp only [agentic_verifier, verdict, rule1_fires, rule2_fires, rule3_fires,
      hs, hl, hp] <;>
    simp [hm, hst]

theorem ite_isEmpty_ne_nil (l : List String) : (if l.isEmpty then [okMsg] else l) ≠ [] := by
  cases l <;> simp

/-- The verifier's report is never the empty list. -/
theorem verdict_ne_nil (p : InputParameters) (d : Selection) : verdict p d ≠ [] := by
  unfold verdict
  exact ite_isEmpty_ne_nil _

theorem verifier_composed_some (p : InputParameters) :
    agentic_verifier p (architecture_logic p) = some (verdict p (architecture_logic p)) := by
  apply agentic_verifier_eq_verdict <;>
    simp [selLookup_storage, selLookup_llm_serving, selLookup_processing]

/-- On the recommender's own output, rule 2 never fires. -/
theorem composed_rule2_false (p : InputParameters) :
    rule2_fires p (architecture_logic p) = false := by
  unfold rule2_fires
  rw [selLookup_llm_serving]
  by_cases hm : p.model_size = "L" <;> simp [hm, pyEqStr]

/-- C1: for every input the recommendation lists exactly the 12 category keys,
in dictionary order, and each key's value shape (single string vs. list of
strings) is the same for every input. -/
theorem recommend_keys_and_shapes (p : InputParameters) :
    (architecture_logic p).map (fun kv => (kv.1, isMulti kv.2)) =
      [ ("API Layer", true), ("Ingestion", true), ("Processing", true),
        ("Storage", true), ("Vector DB", false), ("Embedding Pipeline", false),
        ("RAG Stack", true), ("LLM Serving", false), ("Agentic AI", true),
        ("MLOps", true), ("CI/CD", true), ("DR/Resilience", true) ] := rfl

/-- Slider input with the RAG corpus slider above the rule-1 threshold. -/
def highCorpusParams : InputParameters :=
  { defaultParams with rag_corpus_gb := 600 }

/-- Slider input differing from `defaultParams` in every field the decision
logic never reads. -/
def variedParams : InputParameters :=
  { defaultParams with
    users := 1, rps := 5000, data_gb_day := 5000
    availability := "99.99%", rpo_min := 0, rto_min := 1440
    security := "Low", compliance := "None", budget := "High"
    embed_refresh_hours := 1 }

/-- C2: for every input record and every selection carrying the keys the rules
look up, `verify` returns a non-empty report, and when none of the three rules
fires the report is exactly the one positive confirmation string. -/
theorem verify_report_nonempty (p : InputParameters) (d : Selection)
    (h1 : (selLookup d "Storage").isSome)
    (h2 : (selLookup d "LLM Serving").isSome)
    (h3 : (selLookup d "Processing").isSome) :
    ∃ r, agentic_verifier p d = some r ∧ r ≠ [] ∧
      (rule1_fires p d = false → rule2_fires p d = false → rule3_fires p d = false →
        r = [okMsg]) := by
  refine ⟨verdict p d, agentic_verifier_eq_verdict p d h1 h2 h3, verdict_ne_nil p d, ?_⟩
  intro f1 f2 f3
  simp [verdict, f1, f2, f3]

theorem verify_report_nonempty_witness :
    ∃ r, agentic_verifier defaultParams (architecture_logic defaultParams) = some r ∧ r ≠ [] ∧
      (rule1_fires defaultParams (architecture_logic defaultParams) = false →
       rule2_fires defaultParams (architecture_logic defaultParams) = false →
       rule3_fires defaultParams (architecture_logic defaultParams) = false →
        r = [okMsg]) :=
  verify_report_nonempty defaultParams (architecture_logic defaultParams)
    (by rfl) (by rfl) (by rfl)

/-- C3: the API Layer is the low-latency container service exactly when the
latency target exceeds 150 ms, otherwise the managed inference endpoint; in
particular 150 gives the endpoint and 151 the container service. -/
theorem api_layer_latency_threshold (p : InputParameters) :
    (selLookup (architecture_logic p) "API Layer" =
        some (.multi ["Cloud Run (FastAPI)"]) ↔ p.latency_ms > 150) ∧
    (selLookup (architecture_logic p) "API Layer" =
        some (.multi ["Vertex AI Endpoints"]) ↔ p.latency_ms ≤ 150) ∧
    (p.latency_ms = 150 →
      selLookup (architecture_logic p) "API Layer" = some (.multi ["Vertex AI Endpoints"])) ∧
    (p.latency_ms = 151 →
      selLookup (architecture_logic p) "API Layer" = some (.multi ["Cloud Run (FastAPI)"])) := by
  simp only [selLookup_api_layer]
  by_cases hc : p.latency_ms > 150 <;> simp [hc] <;> omega

theorem api_layer_latency_threshold_witness :
    selLookup (architecture_logic { defaultParams with latency_ms := 150 }) "API Layer" =
      some (.multi ["Vertex AI Endpoints"]) ∧
    selLookup (architecture_logic { defaultParams with latency_ms := 151 }) "API Layer" =
      some (.multi ["Cloud Run (FastAPI)"]) :=
  ⟨(api_layer_latency_threshold _).2.2.1 rfl, (api_layer_latency_threshold _).2.2.2 rfl⟩

/-- C4: the Vector DB is the managed vector index service exactly when the
retrieval-corpus size exceeds 50 GB, otherwise the vector extension on the
relational store; in particular 50 gives the extension and 51 the index. -/
theorem vector_db_corpus_threshold (p : InputParameters) :
    (selLookup (architecture_logic p) "Vector DB" =
        some (.single "Vertex AI Matching Engine") ↔ p.rag_corpus_gb > 50) ∧
    (selLookup (architecture_logic p) "Vector DB" =
        some (.single "pgvector on Cloud SQL") ↔ p.rag_corpus_gb ≤ 50) ∧
    (p.rag_corpus_gb = 50 →
      selLookup (architecture_logic p) "Vector DB" = some (.single "pgvector on Cloud SQL")) ∧
    (p.rag_corpus_gb = 51 →
      selLookup (architecture_logic p) "Vector DB" = some (.single "Vertex AI Matching Engine")) := by
  simp only [selLookup_vector_db]
  by_cases hc : p.rag_corpus_gb > 50 <;> simp [hc] <;> omega

theorem vector_db_corpus_threshold_witness :
    selLookup (architecture_logic { defaultParams with rag_corpus_gb := 50 }) "Vector DB" =
      some (.single "pgvector on Cloud SQL") ∧
    selLookup (architecture_logic { defaultParams with rag_corpus_gb := 51 }) "Vector DB" =
      some (.single "Vertex AI Matching Engine") :=
  ⟨(vector_db_corpus_threshold _).2.2.1 rfl, (vector_db_corpus_threshold _).2.2.2 rfl⟩

/-- C5: with streaming ratio 80 and freshness 10 the Processing selection is
the streaming pipeline and rule 3 does not fire (its advisory is absent from
the composed report); with streaming ratio 80 and freshness 60 the Processing
selection is the warehouse + scheduler, rule 3 fires, and its advisory appears
in the composed report. -/
theorem streaming_freshness_scenarios (p : InputParameters) :
    (p.streaming_pct = 80 → p.freshness_min = 10 →
      selLookup (architecture_logic p) "Processing" =
          some (.multi ["Dataflow (Streaming)"]) ∧
      rule3_fires p (architecture_logic p) = false ∧
      ∀ r, agentic_verifier p (architecture_logic p) = some r → warn3 ∉ r) ∧
    (p.streaming_pct = 80 → p.freshness_min = 60 →
      selLookup (architecture_logic p) "Processing" =
          some (.multi ["BigQuery + Composer"]) ∧
      rule3_fires p (architecture_logic p) = true ∧
      ∀ r, agentic_verifier p (architecture_logic p) = some r → warn3 ∈ r) := by
  have hv := verifier_composed_some p
  have hr2 := composed_rule2_false p
  constructor
  · intro hs hf
    have hr3 : rule3_fires p (architecture_logic p) = false := by
      simp [rule3_fires, selLookup_processing, hf, pyIn]
    refine ⟨by simp [selLookup_processing, hf], hr3, ?_⟩
    intro r hr
    rw [hv] at hr
    have : verdict p (architecture_logic p) = r := Option.some.inj hr
    subst this
    cases hr1 : rule1_fires p (architecture_logic p) <;>
      simp only [verdict, hr1, hr2, hr3, if_true, if_false] <;> decide
  · intro hs hf
    have hr3 : rule3_fires p (architecture_logic p) = true := by
      simp [rule3_fires, selLookup_processing, hf, hs, pyIn, strContains]
    refine ⟨by simp [selLookup_processing, hf], hr3, ?_⟩
    intro r hr
    rw [hv] at hr
    have : verdict p (architecture_logic p) = r := Option.some.inj hr
    subst this
    cases hr1 : rule1_fires p (architecture_logic p) <;>
      simp only [verdict, hr1, hr2, hr3, if_true, if_false] <;> decide

theorem streaming_freshness_scenarios_witness :
    (selLookup (architecture_logic { defaultParams with streaming_pct := 80, freshness_min := 10 })
        "Processing" = some (.multi ["Dataflow (Streaming)"]) ∧
      rule3_fires { defaultParams with streaming_pct := 80, freshness_min := 10 }
        (architecture_logic { defaultParams with streaming_pct := 80, freshness_min := 10 }) = false ∧
      ∀ r, agentic_verifier { defaultParams with streaming_pct := 80, freshness_min := 10 }
          (architecture_logic { defaultParams with streaming_pct := 80, freshness_min := 10 }) =
            some r → warn3 ∉ r) ∧
    (selLookup (architecture_logic { defaultParams with streaming_pct := 80, freshness_min := 60 })
        "Processing" = some (.multi ["BigQuery + Composer"]) ∧
      rule3_fires { defaultParams with streaming_pct := 80, freshness_min := 60 }
        (architecture_logic { defaultParams with streaming_pct := 80, freshness_min := 60 }) = true ∧
      ∀ r, agentic_verifier { defaultParams with streaming_pct := 80, freshness_min := 60 }
          (architecture_logic { defaultParams with streaming_pct := 80, freshness_min := 60 }) =
            some r → warn3 ∈ r) :=
  ⟨(streaming_freshness_scenarios _).1 rfl rfl, (streaming_freshness_scenarios _).2 rfl rfl⟩

/-- Clamp an integer to the inclusive range of its slider. -/
def clampInt (lo hi x : Int) : Int := if x < lo then lo else if hi < x then hi else x

/-- Clamp every numeric input to the range its slider declares
(`app.py` lines 52-70). -/
def clampParams (p : InputParameters) : InputParameters :=
  { users := clampInt 1 20000 p.users,
    rps := clampInt 1 5000 p.rps,
    latency_ms := clampInt 50 2000 p.latency_ms,
    data_gb_day := clampInt 1 5000 p.data_gb_day,
    rag_corpus_gb := clampInt 1 10000 p.rag_corpus_gb,
    freshness_min := clampInt 1 1440 p.freshness_min,
    streaming_pct := clampInt 0 100 p.streaming_pct,
    availability := p.availability,
    rpo_min := clampInt 0 1440 p.rpo_min,
    rto_min := clampInt 0 1440 p.rto_min,
    security := p.security,
    compliance := p.compliance,
    budget := p.budget,
    model_size := p.model_size,
    embed_refresh_hours := clampInt 1 168 p.embed_refresh_hours }

/-- C6: clamping any out-of-declared-range numeric input to the nearest slider
boundary does not change the recommendation: `recommend` on an out-of-range
input equals `recommend` on the clamped input. -/
theorem recommend_clamp_invariant (p : InputParameters) :
    architecture_logic (clampParams p) = architecture_logic p := by
  have h1 : clampInt 50 2000 p.latency_ms > 150 ↔ p.latency_ms > 150 := by
    simp only [clampInt]; split_ifs <;> omega
  have h2 : clampInt 0 100 p.streaming_pct ≥ 50 ↔ p.streaming_pct ≥ 50 := by
    simp only [clampInt]; split_ifs <;> omega
  have h3 : clampInt 1 1440 p.freshness_min < 15 ↔ p.freshness_min < 15 := by
    simp only [clampInt]; split_ifs <;> omega
  have h4 : clampInt 1 10000 p.rag_corpus_gb > 50 ↔ p.rag_corpus_gb > 50 := by
    simp only [clampInt]; split_ifs <;> omega
  simp only [architecture_logic, clampParams, h1, h2, h3, h4]

/-- C7: `recommend` and `verify` are deterministic functions of the input
record: field-by-field equal inputs give identical outputs. -/
theorem recommend_verify_deterministic (p q : InputParameters)
    (h : p.users = q.users ∧ p.rps = q.rps ∧ p.latency_ms = q.latency_ms ∧
         p.data_gb_day = q.data_gb_day ∧ p.rag_corpus_gb = q.rag_corpus_gb ∧
         p.freshness_min = q.freshness_min ∧ p.streaming_pct = q.streaming_pct ∧
         p.availability = q.availability ∧ p.rpo_min = q.rpo_min ∧ p.rto_min = q.rto_min ∧
         p.security = q.security ∧ p.compliance = q.compliance ∧ p.budget = q.budget ∧
         p.model_size = q.model_size ∧ p.embed_refresh_hours = q.embed_refresh_hours) :
    architecture_logic p = architecture_logic q ∧
      ∀ d, agentic_verifier p d = agentic_verifier q d := by
  have hpq : p = q := by
    obtain ⟨h1, h2, h3, h4, h5, h6, h7, h8, h9, h10, h11, h12, h13, h14, h15⟩ := h
    cases p; cases q; simp_all
  subst hpq
  exact ⟨rfl, fun _ => rfl⟩

theorem recommend_verify_deterministic_witness :
    architecture_logic defaultParams = architecture_logic defaultParams ∧
      ∀ d, agentic_verifier defaultParams d = agentic_verifier defaultParams d :=
  recommend_verify_deterministic defaultParams defaultParams
    ⟨rfl, rfl, rfl, rfl, rfl, rfl, rfl, rfl, rfl, rfl, rfl, rfl, rfl, rfl, rfl⟩

/-- C8: the three verifier rules act independently and in definition order:
whenever at least one rule fires, the report is exactly the concatenation of
the firing rules' advisories, rule 1 before rule 2 before rule 3. -/
theorem verifier_rules_independent_ordered (p : InputParameters) (d : Selection)
    (h1 : (selLookup d "Storage").isSome)
    (h2 : (selLookup d "LLM Serving").isSome)
    (h3 : (selLookup d "Processing").isSome)
    (hfire : (rule1_fires p d || rule2_fires p d || rule3_fires p d) = true) :
    agentic_verifier p d =
      some ((if rule1_fires p d then [warn1] else []) ++
            (if rule2_fires p d then [warn2] else []) ++
            (if rule3_fires p d then [warn3] else [])) := by
  rw [agentic_verifier_eq_verdict p d h1 h2 h3]
  unfold verdict
  cases hr1 : rule1_fires p d <;> cases hr2 : rule2_fires p d <;>
    cases hr3 : rule3_fires p d <;> simp_all

theorem verifier_rules_independent_ordered_witness :
    agentic_verifier highCorpusParams (architecture_logic highCorpusParams) =
      some ((if rule1_fires highCorpusParams (architecture_logic highCorpusParams)
              then [warn1] else []) ++
            (if rule2_fires highCorpusParams (architecture_logic highCorpusParams)
              then [warn2] else []) ++
            (if rule3_fires highCorpusParams (architecture_logic highCorpusParams)
              then [warn3] else [])) :=
  verifier_rules_independent_ordered highCorpusParams (architecture_logic highCorpusParams)
    (by rfl) (by rfl) (by rfl) (by rfl)

/-- C9: the ten inputs the decision logic never reads do not influence any
output: two inputs agreeing on latency target, streaming ratio, freshness
target, corpus size and model size class give the same recommendation and,
for every selection, the same verifier report. -/
theorem recommend_verify_unused_inputs (p q : InputParameters)
    (hlat : p.latency_ms = q.latency_ms) (hstr : p.streaming_pct = q.streaming_pct)
    (hfre : p.freshness_min = q.freshness_min) (hcor : p.rag_corpus_gb = q.rag_corpus_gb)
    (hmod : p.model_size = q.model_size) :
    architecture_logic p = architecture_logic q ∧
      ∀ d, agentic_verifier p d = agentic_verifier q d := by
  constructor
  · simp only [architecture_logic, hlat, hstr, hfre, hcor, hmod]
  · intro d
    simp only [agentic_verifier, hcor, hmod, hstr]

theorem recommend_verify_unused_inputs_witness :
    architecture_logic defaultParams = architecture_logic variedParams ∧
      ∀ d, agentic_verifier defaultParams d = agentic_verifier variedParams d :=
  recommend_verify_unused_inputs defaultParams variedParams rfl rfl rfl rfl rfl

/-- C10: rule 2 is unreachable on the composed pipeline: the report of
`verify` applied to a recommendation never contains the rule-2 advisory and
holds at most two entries. -/
theorem composed_rule2_unreachable (p : InputParameters) (r : List String)
    (h : agentic_verifier p (architecture_logic p) = some r) :
    warn2 ∉ r ∧ r.length ≤ 2 := by
  rw [verifier_composed_some p] at h
  have hr : verdict p (architecture_logic p) = r := Option.some.inj h
  subst hr
  have h2 := composed_rule2_false p
  cases hr1 : rule1_fires p (architecture_logic p) <;>
    cases hr3 : rule3_fires p (architecture_logic p) <;>
      simp only [verdict, h2, hr1, hr3, if_true, if_false] <;> decide

theorem composed_rule2_unreachable_witness :
    warn2 ∉ [okMsg] ∧ ([okMsg] : List String).length ≤ 2 :=
  composed_rule2_unreachable defaultParams [okMsg] (by rfl)

end GCPView
